import Mathlib

/-!
# Object-storage upload examples (`main.go`): a shallow embedding

The Go program is a set of example functions that drive an external
object-storage client and an external upload manager.  Every external
collaborator (the client's methods, the upload manager, the `helpers`
package, `os`, `path`) is an input of the model: its results are supplied by
the caller, and every call and every line written to standard output is
recorded in a trace.

* a Go `error` is `Option String` (`nil` is `none`);
* a Go pointer is an `Option` (`nil` is `none`), dereferencing `none` panics;
* `helpers.FatalIfError` on a non-nil error ends the process (no deferred call
  runs); a panic unwinds through the deferred calls;
* `defer` is `Run.deferring`: the deferred call runs after the rest of the
  function body, innermost (latest registered) first.
-/

namespace ObjectStorageExample

/-! ## Data model -/

/-- Go `error`: `none` is `nil`, `some msg` an error whose `Error()` is `msg`. -/
abbrev GoError := Option String

/-- Go `map[string]string`; `none` is the nil map. -/
abbrev StringMap := Option (List (String × String))

/-- An `*os.File`, identified by the path it was opened from. -/
structure File where
  path : String
  deriving DecidableEq, Repr

/-- An `io.ReadCloser` / `io.Reader` value holding an `*os.File` (possibly nil). -/
abbrev ReadCloser := Option File

/-- The `http.Client` of the storage client; only its timeout matters here
(`0` is "no timeout", the value of `&http.Client{}`). -/
structure HTTPClient where
  Timeout : Nat
  deriving DecidableEq, Repr

structure GetNamespaceRequest where
  OpcClientRequestId : Option String
  CompartmentId : Option String
  deriving DecidableEq, Repr

structure GetNamespaceResponse where
  Value : Option String
  deriving DecidableEq, Repr

structure CreateBucketRequest where
  NamespaceName : Option String
  CompartmentId : Option String
  Name : Option String
  Metadata : StringMap
  PublicAccessType : String
  deriving DecidableEq, Repr

structure DeleteBucketRequest where
  NamespaceName : Option String
  BucketName : Option String
  deriving DecidableEq, Repr

structure PutObjectRequest where
  NamespaceName : Option String
  BucketName : Option String
  ObjectName : Option String
  ContentLength : Option Int
  PutObjectBody : ReadCloser
  OpcMeta : StringMap
  deriving DecidableEq, Repr

structure DeleteObjectRequest where
  NamespaceName : Option String
  BucketName : Option String
  ObjectName : Option String
  deriving DecidableEq, Repr

/-- The `objectstorage.ObjectStorageClient`: an external collaborator, given by
what each of its methods answers. -/
structure ObjectStorageClient where
  HTTPClient : HTTPClient
  GetNamespace : GetNamespaceRequest → GetNamespaceResponse × GoError
  CreateBucket : CreateBucketRequest → GoError
  DeleteBucket : DeleteBucketRequest → GoError
  PutObject : PutObjectRequest → GoError
  DeleteObject : DeleteObjectRequest → GoError

/-- The fields of `transfer.MultiPartUploadPart` that `main.go` mentions. -/
structure MultiPartUploadPart where
  PartNum : Int
  TotalParts : Int
  OpcMD5 : Option String
  Err : GoError
  deriving DecidableEq, Repr

/-- What a progress callback does: the lines it writes to standard output and
whether it panicked. -/
structure CallBackRun where
  stdout : List String
  panicked : Bool
  deriving DecidableEq, Repr

structure UploadRequest where
  NamespaceName : Option String
  BucketName : Option String
  ObjectName : Option String
  PartSize : Option Int
  CallBack : Option (MultiPartUploadPart → CallBackRun)
  ObjectStorageClient : Option ObjectStorageClient
  EnableMultipartChecksumVerification : Option Bool
  AllowMultipartUploads : Option Bool
  AllowParrallelUploads : Option Bool

structure UploadFileRequest where
  UploadRequest : UploadRequest
  FilePath : String

structure UploadStreamRequest where
  UploadRequest : UploadRequest
  StreamReader : ReadCloser

structure MultipartUploadResponse where
  UploadID : Option String
  deriving DecidableEq, Repr

structure UploadResponse where
  MultipartUploadResponse : Option MultipartUploadResponse
  deriving DecidableEq, Repr

/-- What one call of the upload manager does, as far as the caller sees it: the
part results it hands to the request's callback, in the order it does so, and
the pair it returns. -/
structure UploadOutcome where
  callbackParts : List MultiPartUploadPart
  resp : UploadResponse
  err : GoError
  deriving DecidableEq, Repr

/-- The remaining external collaborators: the client constructor, the
`helpers`, `path` and `os` functions, the upload manager and the formatting of
an upload response by `fmt.Println`. -/
structure Sdk where
  NewObjectStorageClient : String → String → ObjectStorageClient × GoError
  GetRandomString : Nat → String
  WriteTempFileOfSize : Int → String × Int
  pathBase : String → String
  osOpen : String → ReadCloser × GoError
  UploadFile : UploadFileRequest → UploadOutcome
  ResumeUploadFile : String → UploadOutcome
  UploadStream : UploadStreamRequest → UploadOutcome
  IsResumable : UploadResponse → Bool
  formatUploadResponse : UploadResponse → String

/-! ## Traces and the execution monad -/

/-- Everything observable a run does, in order. -/
inductive Event where
  | stdout (line : String)
  | stderr (line : String)
  | GetNamespace (req : GetNamespaceRequest)
  | CreateBucket (req : CreateBucketRequest)
  | DeleteBucket (req : DeleteBucketRequest)
  | PutObject (req : PutObjectRequest)
  | DeleteObject (req : DeleteObjectRequest)
  | UploadFile (req : UploadFileRequest)
  | ResumeUploadFile (uploadID : String)
  | UploadStream (req : UploadStreamRequest)
  | WriteTempFileOfSize (size : Int)
  | osOpen (path : String)
  | osRemove (path : String)
  | fileClose (file : ReadCloser)

/-- How a function body ends. -/
inductive Outcome (α : Type) where
  | returned (a : α)
  | fatal (msg : String)
  | panic (msg : String)

/-- A run: the trace so far and how it ended. -/
structure Run (α : Type) where
  trace : List Event
  outcome : Outcome α

namespace Run

def ret {α : Type} (a : α) : Run α := ⟨[], .returned a⟩

def andThen {α β : Type} (m : Run α) (f : α → Run β) : Run β :=
  match m.outcome with
  | .returned a => ⟨m.trace ++ (f a).trace, (f a).outcome⟩
  | .fatal e => ⟨m.trace, .fatal e⟩
  | .panic e => ⟨m.trace, .panic e⟩

instance : Monad Run where
  pure := ret
  bind := andThen

/-- Record one event. -/
def emit (e : Event) : Run Unit := ⟨[e], .returned ()⟩

/-- Drop the returned value (a deferred call's results are discarded). -/
def discard {α : Type} (m : Run α) : Run Unit := andThen m (fun _ => ret ())

/-- The statement `defer d` followed by `body`: `d` runs when `body` returns or
panics, not when the process has been ended by a fatal error. -/
def deferring {α : Type} (d : Run Unit) (body : Run α) : Run α :=
  match body.outcome with
  | .returned a =>
    match d.outcome with
    | .returned _ => ⟨body.trace ++ d.trace, .returned a⟩
    | .fatal e => ⟨body.trace ++ d.trace, .fatal e⟩
    | .panic e => ⟨body.trace ++ d.trace, .panic e⟩
  | .panic e =>
    match d.outcome with
    | .returned _ => ⟨body.trace ++ d.trace, .panic e⟩
    | .fatal e2 => ⟨body.trace ++ d.trace, .fatal e2⟩
    | .panic e2 => ⟨body.trace ++ d.trace, .panic e2⟩
  | .fatal e => ⟨body.trace, .fatal e⟩

/-- Dereference a pointer: nil panics. -/
def deref {α : Type} (p : Option α) : Run α :=
  match p with
  | some a => ret a
  | none => ⟨[], .panic "invalid memory address or nil pointer dereference"⟩

end Run

/-- The lines written to standard output, in order. -/
def stdoutLines : List Event → List String
  | [] => []
  | .stdout l :: es => l :: stdoutLines es
  | _ :: es => stdoutLines es

/-- The `PutObject` requests issued, in order. -/
def putObjectCalls : List Event → List PutObjectRequest
  | [] => []
  | .PutObject r :: es => r :: putObjectCalls es
  | _ :: es => putObjectCalls es

/-- The upload IDs `ResumeUploadFile` was called with, in order. -/
def resumeCalls : List Event → List String
  | [] => []
  | .ResumeUploadFile u :: es => u :: resumeCalls es
  | _ :: es => resumeCalls es

/-- Whether the process was ended or crashed. -/
def Outcome.aborted {α : Type} : Outcome α → Bool
  | .returned _ => false
  | .fatal _ => true
  | .panic _ => true

/-! ## External helpers, as used by `main.go` -/

/-- `fmt.Println(a)` for one string: one line on standard output. -/
def Println (s : String) : Run Unit := Run.emit (.stdout s)

/-- `fmt.Println(a, b)`: the operands separated by a space. -/
def Println2 (a b : String) : Run Unit := Run.emit (.stdout (a ++ " " ++ b))

/-- `helpers.FatalIfError`: a non-nil error is logged and the process exits. -/
def FatalIfError (err : GoError) : Run Unit :=
  match err with
  | none => Run.ret ()
  | some e => ⟨[.stderr e], .fatal e⟩

def ociConfigFilePath : String := "~/.oci/config"
def ociProfileName : String := "haiyouyou"
def ociCompartmentId : String :=
  "ocid1.compartment.oc1..aaaaaaaarrh2qh5ehj226yge7k75o4uk6bo6g7eud4hszl7fw4fhbtv2v77q"

def CreateBucketDetailsPublicAccessTypeNopublicaccess : String := "NoPublicAccess"

/-! ## The functions of `main.go` -/

def getNamespace (c : ObjectStorageClient) : Run String := do
  let request : GetNamespaceRequest := ⟨none, none⟩
  Run.emit (.GetNamespace request)
  let (r, err) := c.GetNamespace request
  FatalIfError err
  Println "get namespace"
  Run.deref r.Value

def putObject (c : ObjectStorageClient) (namespaceName bucketname objectname : String)
    (contentLen : Int) (content : ReadCloser) (metadata : StringMap) : Run GoError := do
  Println2 "Begin to put Object:" objectname
  let request : PutObjectRequest :=
    { NamespaceName := some namespaceName
      BucketName := some bucketname
      ObjectName := some objectname
      ContentLength := some contentLen
      PutObjectBody := content
      OpcMeta := metadata }
  Run.emit (.PutObject request)
  let err := c.PutObject request
  Println "put object"
  return err

def deleteObject (c : ObjectStorageClient) (namespaceName bucketname objectname : String) :
    Run GoError := do
  let request : DeleteObjectRequest :=
    { NamespaceName := some namespaceName
      BucketName := some bucketname
      ObjectName := some objectname }
  Run.emit (.DeleteObject request)
  let err := c.DeleteObject request
  FatalIfError err
  Println "delete object"
  return err

def createBucket (c : ObjectStorageClient) (namespaceName name : String) : Run Unit := do
  Println2 "Begin to create bucket:" name
  let compartmentId : Option String := some ociCompartmentId
  let cid ← Run.deref compartmentId
  Println2 "get request.CompartmentId:" cid
  let request : CreateBucketRequest :=
    { NamespaceName := some namespaceName
      CompartmentId := compartmentId
      Name := some name
      Metadata := some []
      PublicAccessType := CreateBucketDetailsPublicAccessTypeNopublicaccess }
  Run.emit (.CreateBucket request)
  let err := c.CreateBucket request
  FatalIfError err
  Println "create bucket"

def deleteBucket (c : ObjectStorageClient) (namespaceName name : String) : Run GoError := do
  let request : DeleteBucketRequest :=
    { NamespaceName := some namespaceName
      BucketName := some name }
  Run.emit (.DeleteBucket request)
  let err := c.DeleteBucket request
  FatalIfError err
  Println "delete bucket"
  return err

/-- `helpers.WriteTempFileOfSize`, with the call recorded. -/
def WriteTempFileOfSize (sdk : Sdk) (size : Int) : Run (String × Int) := do
  Run.emit (.WriteTempFileOfSize size)
  return sdk.WriteTempFileOfSize size

/-- `os.Open`, with the call recorded. -/
def osOpen (sdk : Sdk) (path : String) : Run (ReadCloser × GoError) := do
  Run.emit (.osOpen path)
  return sdk.osOpen path

/-- The content length of `ExampleObjectStorage_UploadFile`. -/
def UploadFile_contentlen : Nat := 1024 * 1000

def ExampleObjectStorage_UploadFile (sdk : Sdk) : Run Unit := do
  let (client, err) := sdk.NewObjectStorageClient ociConfigFilePath ociProfileName
  FatalIfError err
  let bname := sdk.GetRandomString 8
  let namespaceName ← getNamespace client
  createBucket client namespaceName bname
  Run.deferring (Run.discard (deleteBucket client namespaceName bname)) do
    let contentlen := UploadFile_contentlen
    let (filepath, filesize) ← WriteTempFileOfSize sdk (contentlen : Int)
    let filename := sdk.pathBase filepath
    Run.deferring (Run.emit (.osRemove filename)) do
      let (file, e) ← osOpen sdk filepath
      if e ≠ none then FatalIfError e
      Run.deferring (Run.emit (.fileClose file)) do
        let e ← putObject client namespaceName bname filename filesize file none
        FatalIfError e
        Run.deferring (Run.discard (deleteObject client namespaceName bname filename))
          (Run.ret ())

/-- The progress callback handed to the upload manager. -/
def callBack (multiPartUploadPart : MultiPartUploadPart) : CallBackRun :=
  if multiPartUploadPart.Err = none then
    ⟨["One example of progress bar could be the above comment content."], false⟩
  else
    ⟨[], false⟩

/-- The upload manager calling a request's callback on each part result: the
lines written reach standard output; a panicking callback panics the run. -/
def runCallBack (cb : Option (MultiPartUploadPart → CallBackRun)) :
    List MultiPartUploadPart → Run Unit
  | [] => Run.ret ()
  | p :: ps =>
    match cb with
    | none => Run.ret ()
    | some f =>
      Run.andThen
        ⟨(f p).stdout.map Event.stdout,
          if (f p).panicked then .panic "callback" else .returned ()⟩
        (fun _ => runCallBack cb ps)

/-- The content length of `ExampleObjectStorage_UploadManager_UploadFile`. -/
def UploadManager_UploadFile_contentlen : Nat := 1024 * 1024 * 300

/-- The `PartSize` of the request of `ExampleObjectStorage_UploadManager_UploadFile`. -/
def UploadManager_UploadFile_PartSize : Nat := 128 * 1024 * 1024

/-- The request `ExampleObjectStorage_UploadManager_UploadFile` builds. -/
def UploadManager_UploadFile_req (client : ObjectStorageClient)
    (namespaceName bname objectName filepath : String) : UploadFileRequest :=
  { UploadRequest :=
      { NamespaceName := some namespaceName
        BucketName := some bname
        ObjectName := some objectName
        PartSize := some (UploadManager_UploadFile_PartSize : Int)
        CallBack := some callBack
        ObjectStorageClient := some client
        EnableMultipartChecksumVerification := some true
        AllowMultipartUploads := none
        AllowParrallelUploads := none }
    FilePath := filepath }

/-- Lines 98 to 105: the first `UploadFile` call and the conditional resume. -/
def UploadManager_UploadFile_upload (sdk : Sdk) (req : UploadFileRequest) :
    Run (UploadResponse × GoError) := do
  Run.emit (.UploadFile req)
  let o := sdk.UploadFile req
  runCallBack req.UploadRequest.CallBack o.callbackParts
  let resp := o.resp
  let err := o.err
  if err ≠ none && sdk.IsResumable resp then
    let mp ← Run.deref resp.MultipartUploadResponse
    let uploadID ← Run.deref mp.UploadID
    Run.emit (.ResumeUploadFile uploadID)
    let o2 := sdk.ResumeUploadFile uploadID
    runCallBack req.UploadRequest.CallBack o2.callbackParts
    let resp := o2.resp
    let err := o2.err
    if err ≠ none then
      Println (sdk.formatUploadResponse resp)
    return (resp, err)
  else
    return (resp, err)

def ExampleObjectStorage_UploadManager_UploadFile (sdk : Sdk) : Run Unit := do
  let (client0, err) := sdk.NewObjectStorageClient ociConfigFilePath ociProfileName
  FatalIfError err
  let client : ObjectStorageClient := { client0 with HTTPClient := ⟨0⟩ }
  let bname := "bname"
  let namespaceName ← getNamespace client
  createBucket client namespaceName bname
  Run.deferring (Run.discard (deleteBucket client namespaceName bname)) do
    let contentlen := UploadManager_UploadFile_contentlen
    let (filepath, _) ← WriteTempFileOfSize sdk (contentlen : Int)
    let filename := sdk.pathBase filepath
    Run.deferring (Run.emit (.osRemove filename)) do
      let objectName := "sampleFileUploadObj"
      let req := UploadManager_UploadFile_req client namespaceName bname objectName filepath
      let _ ← UploadManager_UploadFile_upload sdk req
      Run.deferring (Run.discard (deleteObject client namespaceName bname objectName))
        (Println "file uploaded")

/-- The content length of `ExampleObjectStorage_UploadManager_Stream`. -/
def UploadManager_Stream_contentlen : Nat := 1024 * 1000 * 130

def ExampleObjectStorage_UploadManager_Stream (sdk : Sdk) : Run Unit := do
  let (client, err) := sdk.NewObjectStorageClient ociConfigFilePath ociProfileName
  FatalIfError err
  let bname := "bname"
  let namespaceName ← getNamespace client
  createBucket client namespaceName bname
  Run.deferring (Run.discard (deleteBucket client namespaceName bname)) do
    let contentlen := UploadManager_Stream_contentlen
    let (filepath, _) ← WriteTempFileOfSize sdk (contentlen : Int)
    let filename := sdk.pathBase filepath
    Run.deferring (Run.emit (.osRemove filename)) do
      let objectName := "sampleStreamUploadObj"
      let (file, _) ← osOpen sdk filepath
      Run.deferring (Run.emit (.fileClose file)) do
        let req : UploadStreamRequest :=
          { UploadRequest :=
              { NamespaceName := some namespaceName
                BucketName := some bname
                ObjectName := some objectName
                PartSize := none
                CallBack := none
                ObjectStorageClient := none
                EnableMultipartChecksumVerification := some true
                AllowMultipartUploads := none
                AllowParrallelUploads := none }
            StreamReader := file }
        Run.emit (.UploadStream req)
        let o := sdk.UploadStream req
        runCallBack req.UploadRequest.CallBack o.callbackParts
        let err := o.err
        if let some e := err then
          Println e
        Run.deferring (Run.discard (deleteObject client namespaceName bname objectName))
          (Println "stream uploaded")

/-! ## The upload coordinator

`transfer.UploadManager` belongs to the external SDK; its decision algorithm
is taken from the specification (section 4.1). -/

/-- One part of a multipart upload: its 1-based number and its byte range
`[offset, offset + length)` within the source. -/
structure UploadPart where
  partNumber : Nat
  offset : Nat
  length : Nat
  deriving DecidableEq, Repr

/-- Modelled from the spec: the partitioning loop of the upload coordinator
(`transfer.UploadManager`, external SDK code absent from the sources),
"partition the source into parts of `partSize` bytes (last part may be
shorter)", parts numbered contiguously from the given number.  `fuel` bounds
the number of parts cut. -/
def partitionFrom (partSize size : Nat) : Nat → Nat → Nat → List UploadPart
  | 0, _, _ => []
  | fuel + 1, offset, partNumber =>
    if offset < size then
      ⟨partNumber, offset, min partSize (size - offset)⟩ ::
        partitionFrom partSize size fuel (offset + min partSize (size - offset)) (partNumber + 1)
    else
      []

/-- Modelled from the spec: the parts of a source of `size` bytes, numbered
from 1 (`transfer.UploadManager` is absent from the sources).  A part holds at
least one byte, so `size` parts always suffice. -/
def partition (partSize size : Nat) : List UploadPart :=
  partitionFrom partSize size size 0 1

/-- The request fields the coordinator decides on: the content length when it
is known (a file) or not (a stream), the number of bytes the source holds, the
part size when set, and `allowMultipartUploads`. -/
structure CoordinatorRequest where
  contentLength : Option Nat
  sourceLength : Nat
  partSize : Option Nat
  allowMultipartUploads : Bool
  deriving DecidableEq, Repr

/-- What the coordinator does with a request. -/
inductive UploadPlan where
  | configurationError
  | single (bytes : Nat)
  | multipart (parts : List UploadPart)
  deriving DecidableEq, Repr

/-- Whether the content length is known and below the threshold. -/
def knownBelow (threshold : Nat) : Option Nat → Bool
  | some n => decide (n < threshold)
  | none => false

/-- Modelled from the spec: steps 1 and 2 of the decision algorithm of the
upload coordinator (`transfer.UploadManager`, absent from the sources): an
invalid part size is a configuration error; a content length known and below
the multipart threshold, or multipart uploads not allowed, gives a single
whole-object upload; otherwise the source is partitioned. -/
def Upload (threshold defaultPartSize : Nat) (req : CoordinatorRequest) : UploadPlan :=
  if req.partSize.getD defaultPartSize = 0 then
    .configurationError
  else if knownBelow threshold req.contentLength || !req.allowMultipartUploads then
    .single req.sourceLength
  else
    .multipart (partition (req.partSize.getD defaultPartSize) req.sourceLength)

/-- The byte ranges of the parts, in order, start at `start`, are non-empty,
each begins where the previous one ends, and the last ends at `size`. -/
def tilesFrom (size : Nat) : Nat → List UploadPart → Bool
  | start, [] => decide (start = size)
  | start, p :: ps =>
    decide (p.offset = start) && decide (0 < p.length) && tilesFrom size (start + p.length) ps

/-- The coordinator request that corresponds to the upload request of
`ExampleObjectStorage_UploadManager_UploadFile`: a file of known length. -/
def fileCoordinatorRequest (req : UploadFileRequest) (fileSize : Nat) : CoordinatorRequest :=
  { contentLength := some fileSize
    sourceLength := fileSize
    partSize := req.UploadRequest.PartSize.map Int.toNat
    allowMultipartUploads := req.UploadRequest.AllowMultipartUploads.getD true }

/-- The coordinator request that corresponds to the upload request of
`ExampleObjectStorage_UploadManager_Stream`: a stream of unknown length. -/
def streamCoordinatorRequest (req : UploadStreamRequest) (streamSize : Nat) :
    CoordinatorRequest :=
  { contentLength := none
    sourceLength := streamSize
    partSize := req.UploadRequest.PartSize.map Int.toNat
    allowMultipartUploads := req.UploadRequest.AllowMultipartUploads.getD true }

/-! ## Concrete environments -/

/-- A client every call of which succeeds. -/
def successClient : ObjectStorageClient :=
  { HTTPClient := ⟨60⟩
    GetNamespace := fun _ => (⟨some "ns"⟩, none)
    CreateBucket := fun _ => none
    DeleteBucket := fun _ => none
    PutObject := fun _ => none
    DeleteObject := fun _ => none }

/-- An environment in which every external call succeeds; the upload manager
reports no part to the callback. -/
def successSdk : Sdk :=
  { NewObjectStorageClient := fun _ _ => (successClient, none)
    GetRandomString := fun _ => "abcdefgh"
    WriteTempFileOfSize := fun n => ("/tmp/OCIGOSDKSampleFile1", n)
    pathBase := fun _ => "OCIGOSDKSampleFile1"
    osOpen := fun p => (some ⟨p⟩, none)
    UploadFile := fun _ => ⟨[], ⟨none⟩, none⟩
    ResumeUploadFile := fun _ => ⟨[], ⟨none⟩, none⟩
    UploadStream := fun _ => ⟨[], ⟨none⟩, none⟩
    IsResumable := fun _ => false
    formatUploadResponse := fun _ => "" }

/-- An environment in which the first `UploadFile` call fails on its second
part with a resumable response carrying upload ID `upload-1`, and the resumed
upload succeeds. -/
def resumableSdk : Sdk :=
  { successSdk with
    UploadFile := fun _ =>
      ⟨[⟨1, 3, some "md5-1", none⟩, ⟨2, 3, none, some "part 2 failed"⟩],
        ⟨some ⟨some "upload-1"⟩⟩, some "part 2 failed"⟩
    ResumeUploadFile := fun _ =>
      ⟨[⟨2, 3, some "md5-2", none⟩, ⟨3, 3, some "md5-3", none⟩], ⟨some ⟨some "upload-1"⟩⟩, none⟩
    IsResumable := fun r => r.MultipartUploadResponse.isSome }

/-- The `UploadFile` requests issued, in order. -/
def uploadFileCalls : List Event → List UploadFileRequest
  | [] => []
  | .UploadFile r :: es => r :: uploadFileCalls es
  | _ :: es => uploadFileCalls es

/-- The request `ExampleObjectStorage_UploadManager_UploadFile` issues in
`resumableSdk`. -/
def resumableReq : UploadFileRequest :=
  UploadManager_UploadFile_req { successClient with HTTPClient := ⟨0⟩ } "ns" "bname"
    "sampleFileUploadObj" "/tmp/OCIGOSDKSampleFile1"

/-- A trace holding no upload-manager file call: neither `UploadFile` nor
`ResumeUploadFile`. -/
def quiet (t : List Event) : Prop := resumeCalls t = [] ∧ uploadFileCalls t = []

/-- The trace `t` is `inner` with quiet traces before and after it. -/
def Around (inner t : List Event) : Prop :=
  ∃ pre post, quiet pre ∧ quiet post ∧ t = pre ++ inner ++ post

/-! ## Lemmas on the execution monad -/

@[simp] theorem Run.bind_eq {α β : Type} (m : Run α) (f : α → Run β) :
    (m >>= f) = Run.andThen m f := rfl

@[simp] theorem Run.pure_eq {α : Type} (a : α) : (pure a : Run α) = Run.ret a := rfl

@[simp] theorem Run.ret_andThen {α β : Type} (a : α) (f : α → Run β) :
    Run.andThen (Run.ret a) f = f a := by
  simp [Run.andThen, Run.ret]

@[simp] theorem Run.emit_andThen {β : Type} (e : Event) (f : Unit → Run β) :
    Run.andThen (Run.emit e) f = ⟨e :: (f ()).trace, (f ()).outcome⟩ := by
  simp [Run.andThen, Run.emit]

@[simp] theorem FatalIfError_none : FatalIfError none = Run.ret () := rfl

@[simp] theorem FatalIfError_some_andThen {β : Type} (e : String) (f : Unit → Run β) :
    Run.andThen (FatalIfError (some e)) f = ⟨[.stderr e], .fatal e⟩ := by
  simp [Run.andThen, FatalIfError]

/-! ## The constants of the examples -/

/-- C6 (code evaluated): the content length of the stream example is
`1024 * 1000 * 130 = 133120000` bytes, which is not `130 * 1024 * 1024`
bytes, whereas the file example computes its 300 MB as `1024 * 1024 * 300`. -/
theorem stream_contentlen_value :
    UploadManager_Stream_contentlen = 133120000 ∧
    UploadManager_Stream_contentlen ≠ 130 * 1024 * 1024 ∧
    UploadManager_Stream_contentlen < 130 * 1024 * 1024 ∧
    UploadManager_UploadFile_contentlen = 300 * (1024 * 1024) := by
  decide

/-! ## `callBack` -/

/-- C7 (claim refuted): for a failed part (`Err` non-nil) `callBack` writes
nothing to standard output. -/
theorem callBack_failed_part_silent :
    (callBack ⟨2, 3, none, some "part upload failed"⟩).stdout = [] := by
  decide

/-- C7 (amended): for every part value `callBack` writes exactly the one fixed
progress line when `Err` is nil and writes nothing when `Err` is non-nil; it
never panics, and what it does is the same whatever `PartNum`, `TotalParts`
and `OpcMD5` (nil included) are. -/
theorem callBack_reports_success_only (p : MultiPartUploadPart) :
    (callBack p).stdout =
      (if p.Err = none then
        ["One example of progress bar could be the above comment content."]
      else []) ∧
    (callBack p).panicked = false ∧
    ∀ (n t : Int) (m : Option String), callBack ⟨n, t, m, p.Err⟩ = callBack p := by
  refine ⟨?_, ?_, ?_⟩
  · unfold callBack
    split <;> rfl
  · unfold callBack
    split <;> rfl
  · intro n t m
    rfl

/-! ## `putObject` -/

/-- C8: for every client and all arguments, `putObject` issues exactly one
`PutObject` request, built from its arguments, returns normally with exactly
the error the client answered, and writes its two lines, the second being
`put object`, whether the client call succeeded or not. -/
theorem putObject_forwards_request_and_error (c : ObjectStorageClient)
    (namespaceName bucketname objectname : String) (contentLen : Int)
    (content : ReadCloser) (metadata : StringMap) :
    putObjectCalls (putObject c namespaceName bucketname objectname contentLen content
        metadata).trace =
      [⟨some namespaceName, some bucketname, some objectname, some contentLen, content,
        metadata⟩] ∧
    (putObject c namespaceName bucketname objectname contentLen content metadata).outcome =
      .returned (c.PutObject ⟨some namespaceName, some bucketname, some objectname,
        some contentLen, content, metadata⟩) ∧
    stdoutLines (putObject c namespaceName bucketname objectname contentLen content
        metadata).trace =
      ["Begin to put Object: " ++ objectname, "put object"] := by
  simp [putObject, Println, Println2, putObjectCalls, stdoutLines, Run.ret]

/-! ## Output of the examples -/

/-- C4 (code evaluated): when every call succeeds, `ExampleObjectStorage_UploadFile`
returns normally and writes eight lines, not the five documented ones: the
five lines appear in the documented order, with three further lines written by
`createBucket` and `putObject` between them. -/
theorem uploadFile_example_output :
    stdoutLines (ExampleObjectStorage_UploadFile successSdk).trace =
      ["get namespace",
       "Begin to create bucket: abcdefgh",
       "get request.CompartmentId: ocid1.compartment.oc1..aaaaaaaarrh2qh5ehj226yge7k75o4uk6bo6g7eud4hszl7fw4fhbtv2v77q",
       "create bucket",
       "Begin to put Object: OCIGOSDKSampleFile1",
       "put object",
       "delete object",
       "delete bucket"] ∧
    (ExampleObjectStorage_UploadFile successSdk).outcome.aborted = false ∧
    stdoutLines (ExampleObjectStorage_UploadFile successSdk).trace ≠
      ["get namespace", "create bucket", "put object", "delete object", "delete bucket"] := by
  decide

/-- C5 (code evaluated): when every call and the stream upload succeed,
`ExampleObjectStorage_UploadManager_Stream` returns normally and writes seven
lines, not the five documented ones: `createBucket` writes two further lines
before `create bucket`. -/
theorem stream_example_output :
    stdoutLines (ExampleObjectStorage_UploadManager_Stream successSdk).trace =
      ["get namespace",
       "Begin to create bucket: bname",
       "get request.CompartmentId: ocid1.compartment.oc1..aaaaaaaarrh2qh5ehj226yge7k75o4uk6bo6g7eud4hszl7fw4fhbtv2v77q",
       "create bucket",
       "stream uploaded",
       "delete object",
       "delete bucket"] ∧
    (ExampleObjectStorage_UploadManager_Stream successSdk).outcome.aborted = false ∧
    stdoutLines (ExampleObjectStorage_UploadManager_Stream successSdk).trace ≠
      ["get namespace", "create bucket", "stream uploaded", "delete object",
       "delete bucket"] := by
  decide

/-! ## The conditional resume of `ExampleObjectStorage_UploadManager_UploadFile` -/

theorem resumeCalls_append (a b : List Event) :
    resumeCalls (a ++ b) = resumeCalls a ++ resumeCalls b := by
  induction a with
  | nil => rfl
  | cons e es ih => cases e <;> simp [resumeCalls, ih]

theorem uploadFileCalls_append (a b : List Event) :
    uploadFileCalls (a ++ b) = uploadFileCalls a ++ uploadFileCalls b := by
  induction a with
  | nil => rfl
  | cons e es ih => cases e <;> simp [uploadFileCalls, ih]

theorem quiet_nil : quiet [] := ⟨rfl, rfl⟩

theorem quiet_append {a b : List Event} (ha : quiet a) (hb : quiet b) : quiet (a ++ b) := by
  unfold quiet at *
  simp [resumeCalls_append, uploadFileCalls_append, ha.1, ha.2, hb.1, hb.2]

theorem quiet_stdout (l : List String) : quiet (l.map Event.stdout) := by
  induction l with
  | nil => exact quiet_nil
  | cons x xs ih => simpa [quiet, resumeCalls, uploadFileCalls] using ih

theorem Run.trace_andThen {α β : Type} (m : Run α) (f : α → Run β) :
    (Run.andThen m f).trace =
      m.trace ++ (match m.outcome with
        | .returned a => (f a).trace
        | _ => []) := by
  unfold Run.andThen
  cases m.outcome <;> simp

theorem Run.trace_deferring {α : Type} (d : Run Unit) (body : Run α) :
    (Run.deferring d body).trace =
      body.trace ++ (match body.outcome with
        | .fatal _ => []
        | _ => d.trace) := by
  unfold Run.deferring
  cases body.outcome <;> cases d.outcome <;> simp

theorem quiet_andThen {α β : Type} {m : Run α} {f : α → Run β} (hm : quiet m.trace)
    (hf : ∀ a, quiet (f a).trace) : quiet (Run.andThen m f).trace := by
  rw [Run.trace_andThen]
  apply quiet_append hm
  cases m.outcome with
  | returned a => exact hf a
  | fatal e => exact quiet_nil
  | panic e => exact quiet_nil

theorem quiet_discard {α : Type} {m : Run α} (hm : quiet m.trace) :
    quiet (Run.discard m).trace :=
  quiet_andThen hm (fun _ => quiet_nil)

theorem Run.deferring_trace_quiet {α : Type} {d : Run Unit} (body : Run α)
    (hd : quiet d.trace) :
    ∃ post, quiet post ∧ (Run.deferring d body).trace = body.trace ++ post := by
  rw [Run.trace_deferring]
  cases body.outcome with
  | returned a => exact ⟨_, hd, rfl⟩
  | fatal e => exact ⟨_, quiet_nil, rfl⟩
  | panic e => exact ⟨_, hd, rfl⟩

theorem Run.andThen_trace_quiet {α β : Type} (m : Run α) {f : α → Run β}
    (hf : ∀ a, quiet (f a).trace) :
    ∃ post, quiet post ∧ (Run.andThen m f).trace = m.trace ++ post := by
  rw [Run.trace_andThen]
  cases m.outcome with
  | returned a => exact ⟨_, hf a, rfl⟩
  | fatal e => exact ⟨_, quiet_nil, rfl⟩
  | panic e => exact ⟨_, quiet_nil, rfl⟩

theorem around_deferring {α : Type} {inner : List Event} {d : Run Unit} {body : Run α}
    (hd : quiet d.trace) (hb : Around inner body.trace) :
    Around inner (Run.deferring d body).trace := by
  obtain ⟨pre, post, hpre, hpost, ht⟩ := hb
  obtain ⟨post2, hpost2, ht2⟩ := Run.deferring_trace_quiet body hd
  exact ⟨pre, post ++ post2, hpre, quiet_append hpost hpost2, by simp [ht2, ht]⟩

theorem around_andThen_right {α β : Type} {inner : List Event} {m : Run α} {f : α → Run β}
    (hm : Around inner m.trace) (hf : ∀ a, quiet (f a).trace) :
    Around inner (Run.andThen m f).trace := by
  obtain ⟨pre, post, hpre, hpost, ht⟩ := hm
  obtain ⟨post2, hpost2, ht2⟩ := Run.andThen_trace_quiet m hf
  exact ⟨pre, post ++ post2, hpre, quiet_append hpost hpost2, by simp [ht2, ht]⟩

theorem around_andThen_left {α β : Type} {inner : List Event} {m : Run α} {f : α → Run β}
    (a : α) (hm : quiet m.trace) (ho : m.outcome = .returned a)
    (hf : Around inner (f a).trace) : Around inner (Run.andThen m f).trace := by
  obtain ⟨pre, post, hpre, hpost, ht⟩ := hf
  rw [Run.trace_andThen, ho]
  exact ⟨m.trace ++ pre, post, quiet_append hm hpre, hpost, by simp [ht]⟩

theorem around_refl (inner : List Event) : Around inner inner :=
  ⟨[], [], quiet_nil, quiet_nil, by simp⟩

theorem quiet_deferring {α : Type} {d : Run Unit} {body : Run α}
    (hd : quiet d.trace) (hb : quiet body.trace) : quiet (Run.deferring d body).trace := by
  obtain ⟨post, hpost, ht⟩ := Run.deferring_trace_quiet body hd
  rw [ht]
  exact quiet_append hb hpost

theorem around_or_quiet_andThen {α β ι : Type} {inner : ι → List Event} {m : Run α}
    {f : α → Run β} (hm : quiet m.trace)
    (hf : ∀ a, quiet (f a).trace ∨ ∃ i, Around (inner i) (f a).trace) :
    quiet (Run.andThen m f).trace ∨ ∃ i, Around (inner i) (Run.andThen m f).trace := by
  rw [Run.trace_andThen]
  cases m.outcome with
  | returned a =>
    rcases hf a with h | ⟨i, pre, post, hpre, hpost, ht⟩
    · exact Or.inl (quiet_append hm h)
    · right
      refine ⟨i, m.trace ++ pre, post, quiet_append hm hpre, hpost, ?_⟩
      simp [ht]
  | fatal e => exact Or.inl (quiet_append hm quiet_nil)
  | panic e => exact Or.inl (quiet_append hm quiet_nil)

theorem quiet_FatalIfError (err : GoError) : quiet (FatalIfError err).trace := by
  cases err <;> simp [FatalIfError, Run.ret, quiet, resumeCalls, uploadFileCalls]

theorem quiet_Println (s : String) : quiet (Println s).trace := by
  simp [Println, Run.emit, quiet, resumeCalls, uploadFileCalls]

theorem quiet_getNamespace (c : ObjectStorageClient) : quiet (getNamespace c).trace := by
  unfold getNamespace
  simp only [Run.bind_eq]
  refine quiet_andThen (by simp [Run.emit, quiet, resumeCalls, uploadFileCalls]) (fun _ => ?_)
  refine quiet_andThen (quiet_FatalIfError _) (fun _ => ?_)
  refine quiet_andThen (quiet_Println _) (fun _ => ?_)
  cases (c.GetNamespace ⟨none, none⟩).1.Value <;> simp [Run.deref, Run.ret, quiet_nil]

theorem quiet_createBucket (c : ObjectStorageClient) (ns name : String) :
    quiet (createBucket c ns name).trace := by
  unfold createBucket
  simp only [Run.bind_eq]
  refine quiet_andThen (by simp [Println2, Run.emit, quiet, resumeCalls, uploadFileCalls])
    (fun _ => ?_)
  refine quiet_andThen (by simp [Run.deref, Run.ret, quiet_nil]) (fun _ => ?_)
  refine quiet_andThen (by simp [Println2, Run.emit, quiet, resumeCalls, uploadFileCalls])
    (fun _ => ?_)
  refine quiet_andThen (by simp [Run.emit, quiet, resumeCalls, uploadFileCalls]) (fun _ => ?_)
  refine quiet_andThen (quiet_FatalIfError _) (fun _ => quiet_Println _)

theorem quiet_deleteBucket (c : ObjectStorageClient) (ns name : String) :
    quiet (deleteBucket c ns name).trace := by
  unfold deleteBucket
  simp only [Run.bind_eq]
  refine quiet_andThen (by simp [Run.emit, quiet, resumeCalls, uploadFileCalls]) (fun _ => ?_)
  refine quiet_andThen (quiet_FatalIfError _) (fun _ => ?_)
  exact quiet_andThen (quiet_Println _) (fun _ => quiet_nil)

theorem quiet_deleteObject (c : ObjectStorageClient) (ns b o : String) :
    quiet (deleteObject c ns b o).trace := by
  unfold deleteObject
  simp only [Run.bind_eq]
  refine quiet_andThen (by simp [Run.emit, quiet, resumeCalls, uploadFileCalls]) (fun _ => ?_)
  refine quiet_andThen (quiet_FatalIfError _) (fun _ => ?_)
  exact quiet_andThen (quiet_Println _) (fun _ => quiet_nil)

theorem quiet_WriteTempFileOfSize (sdk : Sdk) (n : Int) :
    quiet (WriteTempFileOfSize sdk n).trace := by
  unfold WriteTempFileOfSize
  simp only [Run.bind_eq]
  exact quiet_andThen (by simp [Run.emit, quiet, resumeCalls, uploadFileCalls])
    (fun _ => quiet_nil)

theorem example_trace_shape (sdk : Sdk) :
    quiet (ExampleObjectStorage_UploadManager_UploadFile sdk).trace ∨
    ∃ namespaceName,
      Around
        (UploadManager_UploadFile_upload sdk
          (UploadManager_UploadFile_req
            { (sdk.NewObjectStorageClient ociConfigFilePath ociProfileName).1 with
              HTTPClient := ⟨0⟩ }
            namespaceName "bname" "sampleFileUploadObj"
            (sdk.WriteTempFileOfSize (UploadManager_UploadFile_contentlen : Int)).1)).trace
        (ExampleObjectStorage_UploadManager_UploadFile sdk).trace := by
  unfold ExampleObjectStorage_UploadManager_UploadFile
  simp only [Run.bind_eq]
  refine around_or_quiet_andThen (quiet_FatalIfError _) (fun _ => ?_)
  refine around_or_quiet_andThen (quiet_getNamespace _) (fun namespaceName => ?_)
  refine around_or_quiet_andThen (quiet_createBucket _ _ _) (fun _ => ?_)
  refine Or.inr ⟨namespaceName, ?_⟩
  refine around_deferring (quiet_discard (quiet_deleteBucket _ _ _)) ?_
  refine around_andThen_left (sdk.WriteTempFileOfSize _) (quiet_WriteTempFileOfSize _ _) rfl ?_
  refine around_deferring (by simp [Run.emit, quiet, resumeCalls, uploadFileCalls]) ?_
  refine around_andThen_right (around_refl _) (fun _ => ?_)
  exact quiet_deferring (quiet_discard (quiet_deleteObject _ _ _ _)) (quiet_Println _)

theorem calls_of_quiet {t : List Event} (h : quiet t) (req : UploadFileRequest) (id : String) :
    req :: uploadFileCalls t = [req] ∧ id :: resumeCalls t = [id] := by
  simp [h.1, h.2]

theorem runCallBack_callBack (parts : List MultiPartUploadPart) :
    (runCallBack (some callBack) parts).outcome = .returned () ∧
    quiet (runCallBack (some callBack) parts).trace := by
  induction parts with
  | nil => simp [runCallBack, Run.ret, quiet_nil]
  | cons p ps ih =>
    obtain ⟨h1, h2⟩ := ih
    have hp : (callBack p).panicked = false := by unfold callBack; split <;> rfl
    constructor
    · simp [runCallBack, Run.andThen, hp, h1]
    · simp only [runCallBack]
      exact quiet_andThen (quiet_stdout _) (fun _ => h2)

/-- The conditional resume of lines 98 to 105, for a request whose callback is
`callBack`: one `UploadFile` call, and `ResumeUploadFile` called with the
upload ID of the response exactly when the error is non-nil, the response is
resumable and the ID can be dereferenced. -/
theorem upload_calls (sdk : Sdk) (req : UploadFileRequest)
    (hcb : req.UploadRequest.CallBack = some callBack) :
    uploadFileCalls (UploadManager_UploadFile_upload sdk req).trace = [req] ∧
    resumeCalls (UploadManager_UploadFile_upload sdk req).trace =
      (if (sdk.UploadFile req).err ≠ none ∧ sdk.IsResumable (sdk.UploadFile req).resp = true then
        match (sdk.UploadFile req).resp.MultipartUploadResponse with
        | some mp =>
          match mp.UploadID with
          | some id => [id]
          | none => []
        | none => []
      else []) := by
  unfold UploadManager_UploadFile_upload
  simp only [Run.bind_eq, Run.pure_eq, hcb]
  obtain ⟨ho, hq⟩ := runCallBack_callBack (sdk.UploadFile req).callbackParts
  rw [Run.emit_andThen]
  simp only [uploadFileCalls, resumeCalls]
  rw [Run.trace_andThen, ho]
  simp only [uploadFileCalls_append, resumeCalls_append, hq.1, hq.2, List.nil_append]
  by_cases hc : (sdk.UploadFile req).err ≠ none ∧ sdk.IsResumable (sdk.UploadFile req).resp = true
  · have hc2 : (decide ((sdk.UploadFile req).err ≠ none) &&
        sdk.IsResumable (sdk.UploadFile req).resp) = true := by
      simp [hc.1, hc.2]
    rw [if_pos hc2, if_pos hc]
    cases (sdk.UploadFile req).resp.MultipartUploadResponse with
    | none => simp [Run.deref, Run.andThen, uploadFileCalls, resumeCalls]
    | some mp =>
      simp only [Run.deref, Run.ret_andThen]
      cases mp.UploadID with
      | none => simp [Run.andThen, uploadFileCalls, resumeCalls]
      | some id =>
        simp only [Run.ret_andThen, Run.emit_andThen, uploadFileCalls, resumeCalls]
        refine calls_of_quiet ?_ req id
        refine quiet_andThen (runCallBack_callBack _).2 (fun _ => ?_)
        split
        · exact quiet_andThen (quiet_Println _) (fun _ => quiet_nil)
        · simp [Run.ret, quiet_nil]
  · have hc2 : ¬ (decide ((sdk.UploadFile req).err ≠ none) &&
        sdk.IsResumable (sdk.UploadFile req).resp) = true := by
      simpa using hc
    rw [if_neg hc2, if_neg hc]
    simp [Run.ret, uploadFileCalls, resumeCalls]

theorem example_trace_reaches_upload (sdk : Sdk) :
    quiet (ExampleObjectStorage_UploadManager_UploadFile sdk).trace ∨
    ∃ req, req.UploadRequest.CallBack = some callBack ∧
      Around (UploadManager_UploadFile_upload sdk req).trace
        (ExampleObjectStorage_UploadManager_UploadFile sdk).trace := by
  rcases example_trace_shape sdk with h | ⟨namespaceName, h⟩
  · exact Or.inl h
  · exact Or.inr ⟨_, rfl, h⟩

/-- C3: in every run of `ExampleObjectStorage_UploadManager_UploadFile` that
reaches its `UploadFile` call, where a failed resumable response carries an
upload ID: if `UploadFile` returned a non-nil error and the response reports
`IsResumable()`, `ResumeUploadFile` is called exactly once in the whole run,
with the upload ID of the response's `MultipartUploadResponse`; in every other
case it is not called at all. -/
theorem resume_iff_resumable_failure (sdk : Sdk) (req : UploadFileRequest)
    (hcall : uploadFileCalls (ExampleObjectStorage_UploadManager_UploadFile sdk).trace = [req])
    (hid : (sdk.UploadFile req).err ≠ none → sdk.IsResumable (sdk.UploadFile req).resp = true →
      ∃ mp id, (sdk.UploadFile req).resp.MultipartUploadResponse = some mp ∧
        mp.UploadID = some id) :
    (((sdk.UploadFile req).err ≠ none ∧ sdk.IsResumable (sdk.UploadFile req).resp = true) →
      ∃ mp id, (sdk.UploadFile req).resp.MultipartUploadResponse = some mp ∧
        mp.UploadID = some id ∧
        resumeCalls (ExampleObjectStorage_UploadManager_UploadFile sdk).trace = [id]) ∧
    (¬ ((sdk.UploadFile req).err ≠ none ∧ sdk.IsResumable (sdk.UploadFile req).resp = true) →
      resumeCalls (ExampleObjectStorage_UploadManager_UploadFile sdk).trace = []) := by
  rcases example_trace_reaches_upload sdk with hq | ⟨r0, hcb, pre, post, hpre, hpost, ht⟩
  · rw [hq.2] at hcall
    exact absurd hcall (by simp)
  · obtain ⟨hu, hr⟩ := upload_calls sdk r0 hcb
    rw [ht] at hcall ⊢
    simp only [uploadFileCalls_append, hpre.2, hpost.2, hu, List.nil_append,
      List.append_nil, List.cons.injEq, and_true] at hcall
    simp only [resumeCalls_append, hpre.1, hpost.1, List.nil_append, List.append_nil]
    subst hcall
    rw [hr]
    constructor
    · intro hc
      obtain ⟨mp, id, hmp, hidv⟩ := hid hc.1 hc.2
      refine ⟨mp, id, hmp, hidv, ?_⟩
      rw [if_pos hc, hmp]
      simp only [hidv]
    · intro hc
      rw [if_neg hc]

/-- C3 (witness): in `resumableSdk` the first upload fails with a resumable
response carrying `upload-1`, and the run calls `ResumeUploadFile` once, with
`upload-1`. -/
theorem resume_iff_resumable_failure_witness :
    uploadFileCalls (ExampleObjectStorage_UploadManager_UploadFile resumableSdk).trace =
      [resumableReq] ∧
    ((((resumableSdk.UploadFile resumableReq).err ≠ none ∧
        resumableSdk.IsResumable (resumableSdk.UploadFile resumableReq).resp = true) →
      ∃ mp id, (resumableSdk.UploadFile resumableReq).resp.MultipartUploadResponse = some mp ∧
        mp.UploadID = some id ∧
        resumeCalls (ExampleObjectStorage_UploadManager_UploadFile resumableSdk).trace = [id]) ∧
    (¬ ((resumableSdk.UploadFile resumableReq).err ≠ none ∧
        resumableSdk.IsResumable (resumableSdk.UploadFile resumableReq).resp = true) →
      resumeCalls (ExampleObjectStorage_UploadManager_UploadFile resumableSdk).trace = [])) ∧
    resumeCalls (ExampleObjectStorage_UploadManager_UploadFile resumableSdk).trace =
      ["upload-1"] :=
  ⟨rfl,
    resume_iff_resumable_failure resumableSdk resumableReq rfl
      (fun _ _ => ⟨⟨some "upload-1"⟩, "upload-1", rfl, rfl⟩),
    rfl⟩

/-! ## The upload coordinator: partitioning -/

theorem ceil_step (ps r : Nat) (hps : 0 < ps) (hr : 0 < r) :
    (r + ps - 1) / ps = (r - min ps r + ps - 1) / ps + 1 := by
  rcases Nat.lt_or_ge r ps with h | h
  · have h1 : min ps r = r := Nat.min_eq_right (Nat.le_of_lt h)
    have h2 : r + ps - 1 = (r - 1) + ps := by omega
    rw [h1, h2, Nat.add_div_right _ hps, Nat.div_eq_of_lt (by omega : r - 1 < ps)]
    rw [Nat.div_eq_of_lt (by omega : r - r + ps - 1 < ps)]
  · have h1 : min ps r = ps := Nat.min_eq_left h
    have h2 : r + ps - 1 = (r - ps + ps - 1) + ps := by omega
    rw [h1, h2, Nat.add_div_right _ hps]

theorem partitionFrom_spec (partSize size : Nat) (hps : 0 < partSize) :
    ∀ (fuel offset num : Nat), offset ≤ size → size - offset ≤ fuel →
      tilesFrom size offset (partitionFrom partSize size fuel offset num) = true ∧
      (partitionFrom partSize size fuel offset num).map UploadPart.partNumber =
        List.range' num (partitionFrom partSize size fuel offset num).length ∧
      (partitionFrom partSize size fuel offset num).length =
        (size - offset + partSize - 1) / partSize := by
  intro fuel
  induction fuel with
  | zero =>
    intro offset num hle hfuel
    have h0 : size - offset = 0 := by omega
    have hoff : offset = size := by omega
    simp [partitionFrom, tilesFrom, hoff, Nat.div_eq_of_lt (by omega : partSize - 1 < partSize)]
  | succ fuel ih =>
    intro offset num hle hfuel
    by_cases hlt : offset < size
    · have hmin : 0 < min partSize (size - offset) := by
        apply Nat.lt_min.mpr
        constructor <;> omega
      have hmle : min partSize (size - offset) ≤ size - offset := Nat.min_le_right _ _
      obtain ⟨ht, hn, hl⟩ := ih (offset + min partSize (size - offset)) (num + 1)
        (by omega) (by omega)
      have hsub : size - (offset + min partSize (size - offset)) =
          size - offset - min partSize (size - offset) := by omega
      refine ⟨?_, ?_, ?_⟩
      · simp [partitionFrom, hlt, tilesFrom, ht]
        omega
      · simp only [partitionFrom, hlt, if_true, List.map_cons, List.length_cons]
        rw [hn, List.range'_succ]
      · simp only [partitionFrom, hlt, if_true, List.length_cons]
        rw [hl, hsub, ← ceil_step partSize (size - offset) hps (by omega)]
    · have hoff : offset = size := by omega
      simp [partitionFrom, tilesFrom, hoff,
        Nat.div_eq_of_lt (by omega : partSize - 1 < partSize)]

theorem tilesFrom_sum (size : Nat) :
    ∀ (parts : List UploadPart) (start : Nat), tilesFrom size start parts = true →
      start + (parts.map UploadPart.length).sum = size := by
  intro parts
  induction parts with
  | nil =>
    intro start h
    simpa [tilesFrom] using h
  | cons p ps ih =>
    intro start h
    simp only [tilesFrom, Bool.and_eq_true, decide_eq_true_eq] at h
    have := ih (start + p.length) h.2
    simp only [List.map_cons, List.sum_cons]
    omega

theorem ceil_bounds (ps size : Nat) (hps : 0 < ps) (hsize : 0 < size) :
    size ≤ ((size + ps - 1) / ps) * ps ∧ ((size + ps - 1) / ps - 1) * ps < size := by
  have h1 := Nat.div_add_mod (size + ps - 1) ps
  have h2 := Nat.mod_lt (size + ps - 1) hps
  have h3 : 1 ≤ (size + ps - 1) / ps := by
    rw [Nat.le_div_iff_mul_le hps]; omega
  generalize (size + ps - 1) / ps = q at *
  generalize (size + ps - 1) % ps = r at *
  obtain ⟨k, rfl⟩ : ∃ k, q = k + 1 := ⟨q - 1, by omega⟩
  simp only [Nat.add_sub_cancel]
  rw [Nat.mul_add, Nat.mul_one] at h1
  rw [Nat.add_mul, Nat.one_mul, Nat.mul_comm k ps]
  constructor <;> omega

/-- C1: for the constants of the file-upload example (content length
`1024 * 1024 * 300`, `PartSize` `128 * 1024 * 1024`) the partition of the
content has exactly 3 parts, numbered 1, 2, 3, of 128 MB, 128 MB and 44 MB
(1 MB = `1024 * 1024` bytes), laid end to end from offset 0, whose sizes sum
to the content length. -/
theorem example_file_three_parts :
    partition UploadManager_UploadFile_PartSize UploadManager_UploadFile_contentlen =
      [⟨1, 0, 128 * (1024 * 1024)⟩,
       ⟨2, 128 * (1024 * 1024), 128 * (1024 * 1024)⟩,
       ⟨3, 256 * (1024 * 1024), 44 * (1024 * 1024)⟩] ∧
    (partition UploadManager_UploadFile_PartSize UploadManager_UploadFile_contentlen).length = 3 ∧
    ((partition UploadManager_UploadFile_PartSize UploadManager_UploadFile_contentlen).map
      UploadPart.length).sum = UploadManager_UploadFile_contentlen ∧
    UploadManager_UploadFile_contentlen = 1024 * 1024 * 300 ∧
    UploadManager_UploadFile_PartSize = 128 * 1024 * 1024 ∧
    (fileCoordinatorRequest
      (UploadManager_UploadFile_req successClient "ns" "bname" "sampleFileUploadObj" "f")
      UploadManager_UploadFile_contentlen).partSize = some UploadManager_UploadFile_PartSize := by
  decide

/-- C2: for every source longer than the multipart threshold and every valid
(positive) part size, with multipart uploads allowed as in the upload-manager
examples, whether the content length is known (file) or not (stream), the
upload is a multipart upload whose parts are numbered 1..n, whose byte ranges
start at 0, are non-empty, each begin where the previous one ends and end at
the source length (so their lengths sum to it), and n is the ceiling of
size / partSize. -/
theorem upload_parts_tile_source (threshold defaultPartSize : Nat) (req : CoordinatorRequest)
    (hsize : threshold < req.sourceLength)
    (hlen : req.contentLength = none ∨ req.contentLength = some req.sourceLength)
    (hps : 0 < req.partSize.getD defaultPartSize)
    (hallow : req.allowMultipartUploads = true) :
    ∃ parts, Upload threshold defaultPartSize req = .multipart parts ∧
      parts.map UploadPart.partNumber = List.range' 1 parts.length ∧
      tilesFrom req.sourceLength 0 parts = true ∧
      (parts.map UploadPart.length).sum = req.sourceLength ∧
      parts.length =
        (req.sourceLength + req.partSize.getD defaultPartSize - 1) /
          req.partSize.getD defaultPartSize ∧
      req.sourceLength ≤ parts.length * req.partSize.getD defaultPartSize ∧
      (parts.length - 1) * req.partSize.getD defaultPartSize < req.sourceLength := by
  have hkb : knownBelow threshold req.contentLength = false := by
    rcases hlen with h | h
    · rw [h]; rfl
    · rw [h]
      simp only [knownBelow, decide_eq_false_iff_not]
      omega
  obtain ⟨ht, hn, hl⟩ := partitionFrom_spec (req.partSize.getD defaultPartSize) req.sourceLength
    hps req.sourceLength 0 1 (Nat.zero_le _) (by omega)
  have hsum := tilesFrom_sum req.sourceLength _ 0 ht
  have hb := ceil_bounds (req.partSize.getD defaultPartSize) req.sourceLength hps (by omega)
  refine ⟨partition (req.partSize.getD defaultPartSize) req.sourceLength, ?_, hn, ht, ?_, ?_, ?_,
    ?_⟩
  · unfold Upload
    rw [if_neg (by omega), hkb, hallow]
    rfl
  · unfold partition
    omega
  · unfold partition
    rw [hl]
    rfl
  · unfold partition
    rw [hl]
    exact hb.1
  · unfold partition
    rw [hl]
    exact hb.2

/-- C2 (witness): the request of the file-upload example, with its 300 MB file
and a threshold of one part size. -/
theorem upload_parts_tile_source_witness :
    ∃ parts,
      Upload UploadManager_UploadFile_PartSize 0
        (fileCoordinatorRequest
          (UploadManager_UploadFile_req successClient "ns" "bname" "sampleFileUploadObj" "f")
          UploadManager_UploadFile_contentlen) = .multipart parts ∧
      parts.map UploadPart.partNumber = List.range' 1 parts.length ∧
      tilesFrom UploadManager_UploadFile_contentlen 0 parts = true ∧
      (parts.map UploadPart.length).sum = UploadManager_UploadFile_contentlen ∧
      parts.length =
        (UploadManager_UploadFile_contentlen + UploadManager_UploadFile_PartSize - 1) /
          UploadManager_UploadFile_PartSize ∧
      UploadManager_UploadFile_contentlen ≤ parts.length * UploadManager_UploadFile_PartSize ∧
      (parts.length - 1) * UploadManager_UploadFile_PartSize <
        UploadManager_UploadFile_contentlen :=
  upload_parts_tile_source UploadManager_UploadFile_PartSize 0
    (fileCoordinatorRequest
      (UploadManager_UploadFile_req successClient "ns" "bname" "sampleFileUploadObj" "f")
      UploadManager_UploadFile_contentlen)
    (by decide) (Or.inr rfl) (by decide) (by decide)

end ObjectStorageExample
